import Mathlib

/-!
Shallow embedding of the `reel` audit-logging service
(`src/reel-be/services/reel_service.py` and its data model in
`src/reel-be/models/log_entry.py`, `src/reel-be/schemas/log.py`,
`src/reel-be/config.py`).

Modelling conventions:
* A database table is a `List LogEntry`; SQL `WHERE` clauses become
  `List.filter` with Bool predicates, `ORDER BY created_at DESC` becomes
  `List.mergeSort` with the key `created_at` compared descending
  (ties broken by the stable order of the list, matching the spec's
  "ties broken by arbitrary stable order").
* UUID columns are modelled as `Nat` identifiers; `datetime` values as
  `Int` timestamps (one retention day = one time unit); nullable columns
  as `Option`.
* Python exceptions (ZeroDivisionError from `//`, MultipleResultsFound
  from `scalar_one_or_none`) are modelled with `Except String`.
* The JSON payload column `data : dict[str, Any] | None` is modelled as an
  association list with string values (`Option (List (String × String))`);
  no claim inspects values nested inside the payload.
* SQL `LIKE 'p%'` is modelled as a literal string-start match
  (`String.startsWith`); LIKE metacharacters inside the filter value are
  not modelled.
-/

namespace Reel

/-- `LogSeverity` from `models/log_entry.py`: DEBUG, INFO, WARNING, ERROR,
CRITICAL (a closed string enumeration). -/
inductive LogSeverity
  | DEBUG
  | INFO
  | WARNING
  | ERROR
  | CRITICAL
deriving DecidableEq

/-- The `.value` of a `LogSeverity` member (the enum is a `str` enum). -/
def LogSeverity.value : LogSeverity → String
  | .DEBUG => "DEBUG"
  | .INFO => "INFO"
  | .WARNING => "WARNING"
  | .ERROR => "ERROR"
  | .CRITICAL => "CRITICAL"

/-- One row of the `reel_log_entries` table (`LogEntry` in
`models/log_entry.py`).  Non-nullable columns: `id`, `tenant_id`,
`module`, `action`, `severity`, `created_at`. -/
structure LogEntry where
  id : Nat
  tenant_id : Nat
  client_id : Option Nat
  actor_id : Option Nat
  actor_email : Option String
  actor_name : Option String
  module : String
  action : String
  severity : LogSeverity
  resource_type : Option String
  resource_id : Option Nat
  data : Option (List (String × String))
  ip_address : Option String
  user_agent : Option String
  request_id : Option Nat
  created_at : Int
deriving DecidableEq

/-- `LogFilter` from `schemas/log.py`: every field optional. -/
structure LogFilter where
  start_date : Option Int := none
  end_date : Option Int := none
  actor_id : Option Nat := none
  module : Option String := none
  action : Option String := none
  severity : Option LogSeverity := none
  min_severity : Option LogSeverity := none
  resource_type : Option String := none
  resource_id : Option Nat := none
  client_id : Option Nat := none
  search : Option String := none
deriving DecidableEq

/-! Configuration defaults from `config.py` (`ReelConfig`).  `retention_days`
is kept as an explicit argument of `cleanup_old_entries` because the claims
quantify over it. -/

def max_page_size : Nat := 100

def default_page_size : Nat := 50

def max_export_records : Nat := 10000

/-- The `severity_order` mapping built inside `_apply_filters`
(lines 187-193 of `reel_service.py`). -/
def severity_order : List (LogSeverity × Nat) :=
  [(.DEBUG, 0), (.INFO, 1), (.WARNING, 2), (.ERROR, 3), (.CRITICAL, 4)]

/-- The `min_severity` condition of `_apply_filters` (lines 186-201):
`min_level = severity_order.get(filter.min_severity, 0)`, then an OR over
the severities whose level is `≥ min_level`; when that OR list is empty no
condition is appended (the condition is vacuously true). -/
def minSeverityCond (m : LogSeverity) (s : LogSeverity) : Bool :=
  let min_level := (((severity_order.find? (fun p => p.1 == m)).map Prod.snd).getD 0)
  let severity_conditions :=
    (severity_order.filter (fun p => decide (min_level ≤ p.2))).map Prod.fst
  if severity_conditions.isEmpty then true
  else severity_conditions.any (fun sev => s == sev)

/-- `json.dumps` rendering of a flat string payload (the `astext` form of
the JSONB column; exotic character escaping is not modelled). -/
def dumpsPayload (d : List (String × String)) : String :=
  "\x7b" ++
    String.intercalate ", "
      (d.map (fun p => "\"" ++ p.1 ++ "\": \"" ++ p.2 ++ "\"")) ++
  "\x7d"

/-- Case-insensitive substring test, modelling SQL `ILIKE '%pat%'`. -/
def ilikeContains (hay pat : String) : Bool :=
  pat == "" || decide (2 ≤ ((hay.toLower).splitOn (pat.toLower)).length)

/-- `l₁` is a leading segment of `l₂` (executable, character lists). -/
def listIsPrefix : List Char → List Char → Bool
  | [], _ => true
  | _ :: _, [] => false
  | a :: as, b :: bs => a == b && listIsPrefix as bs

/-- Python `s.startswith(pre)` / SQL `LIKE 'pre%'` on literal text. -/
def strStartsWith (s pre : String) : Bool :=
  listIsPrefix pre.data s.data

/-- Python `s.endswith(suf)`. -/
def strEndsWith (s suf : String) : Bool :=
  listIsPrefix suf.data.reverse s.data.reverse

/-- Python `s[:-n]` (drop the last `n` characters). -/
def strDropRight (s : String) (n : Nat) : String :=
  ⟨s.data.take (s.data.length - n)⟩

/-- `ReelService._apply_filters` (lines 158-223) as a row predicate: the
conjunction of all appended conditions.  Each Python guard `if filter.x:`
tests truthiness, so an empty-string value for `module`, `action`,
`resource_type` or `search` appends no condition; SQL equality against a
NULL column is not satisfied, hence the `== some v` comparisons on
nullable columns. -/
def matchesFilter (f : LogFilter) (e : LogEntry) : Bool :=
  (match f.start_date with
   | some d => decide (d ≤ e.created_at)
   | none => true) &&
  (match f.end_date with
   | some d => decide (e.created_at ≤ d)
   | none => true) &&
  (match f.actor_id with
   | some a => e.actor_id == some a
   | none => true) &&
  (match f.module with
   | some m => if m == "" then true else e.module == m
   | none => true) &&
  (match f.action with
   | some a =>
     if a == "" then true
     else if strEndsWith a ".*" then
       let pre := strDropRight a 1
       strStartsWith e.action pre
     else e.action == a
   | none => true) &&
  (match f.severity with
   | some s => e.severity == s
   | none => true) &&
  (match f.min_severity with
   | some m => minSeverityCond m e.severity
   | none => true) &&
  (match f.resource_type with
   | some r => if r == "" then true else e.resource_type == some r
   | none => true) &&
  (match f.resource_id with
   | some r => e.resource_id == some r
   | none => true) &&
  (match f.client_id with
   | some c => e.client_id == some c
   | none => true) &&
  (match f.search with
   | some s =>
     if s == "" then true
     else
       match e.data with
       | some d => ilikeContains (dumpsPayload d) s
       | none => false
   | none => true)

/-- Applying an optional filter to a result set (`if filter: query =
self._apply_filters(query, filter)`). -/
def applyFilters (f : Option LogFilter) (l : List LogEntry) : List LogEntry :=
  match f with
  | none => l
  | some f => l.filter (matchesFilter f)

/-- The tenant scope every query starts from:
`select(LogEntry).where(LogEntry.tenant_id == tenant_id)`. -/
def tenantScoped (db : List LogEntry) (tenant_id : Nat) : List LogEntry :=
  db.filter (fun e => e.tenant_id == tenant_id)

/-- The set of rows matching a `list`/`export` query before ordering and
pagination: tenant scope plus filters. -/
def matchingEntries (db : List LogEntry) (tenant_id : Nat)
    (f : Option LogFilter) : List LogEntry :=
  applyFilters f (tenantScoped db tenant_id)

/-- `ORDER BY created_at DESC` (newest first), ties broken by the stable
order of the underlying list. -/
def newestFirst (l : List LogEntry) : List LogEntry :=
  l.mergeSort (fun a b => decide (b.created_at ≤ a.created_at))

/-- `LogEntryList` from `schemas/log.py`: the paginated result shape. -/
structure LogEntryList where
  items : List LogEntry
  total : Nat
  page : Int
  page_size : Nat
  pages : Nat
deriving DecidableEq

/-- Python `//` on naturals: raises `ZeroDivisionError` when the divisor
is zero, floor division otherwise. -/
def pyFloorDiv (a b : Nat) : Except String Nat :=
  if b = 0 then .error "ZeroDivisionError" else .ok (a / b)

/-- SQLAlchemy `scalar_one_or_none()`: `none` on an empty result, the row
on a singleton, `MultipleResultsFound` otherwise. -/
def scalarOneOrNone (l : List LogEntry) : Except String (Option LogEntry) :=
  match l with
  | [] => .ok none
  | [e] => .ok (some e)
  | _ => .error "MultipleResultsFound"

/-- `ReelService.get` (lines 97-104): one row selected by
`id == log_id AND tenant_id == tenant_id`, via `scalar_one_or_none`. -/
def ReelService.get (db : List LogEntry) (log_id : Nat) (tenant_id : Nat) :
    Except String (Option LogEntry) :=
  scalarOneOrNone
    (db.filter (fun e => e.id == log_id && e.tenant_id == tenant_id))

/-- `ReelService.list` (lines 106-156).  `page_size` is clamped from above
by `max_page_size`, `page` from below by 1; the count and the page fetch
run over the same filtered query; `pages = (total + page_size - 1) //
page_size` when `total > 0` (Python `//`, which raises on a zero divisor)
and 0 otherwise.  Negative `page_size` values (whose behaviour is decided
by the SQL backend) are outside the model, hence `page_size : Nat`. -/
def ReelService.list (db : List LogEntry) (tenant_id : Nat)
    (filter : Option LogFilter) (page : Int) (page_size : Nat) :
    Except String LogEntryList :=
  let page_size := min page_size max_page_size
  let page := max page 1
  let query := newestFirst (matchingEntries db tenant_id filter)
  let total := query.length
  let offset := (page - 1).toNat * page_size
  let entries := (query.drop offset).take page_size
  if 0 < total then
    match pyFloorDiv (total + page_size - 1) page_size with
    | .error msg => .error msg
    | .ok pages =>
      .ok { items := entries, total := total, page := page,
            page_size := page_size, pages := pages }
  else
    .ok { items := entries, total := total, page := page,
          page_size := page_size, pages := 0 }

/-- The `items` field returned by `ReelService.list` for page `p`
(empty when the call raises). -/
def pageItems (db : List LogEntry) (tenant_id : Nat) (f : Option LogFilter)
    (page_size : Nat) (p : Nat) : List LogEntry :=
  match ReelService.list db tenant_id f (p : Int) page_size with
  | .ok r => r.items
  | .error _ => []

/-- `ReelService.cleanup_old_entries` (lines 392-420): a no-op returning 0
when `retention_days ≤ 0`; otherwise `cutoff = now - retention_days`, the
rows with `created_at < cutoff` are counted and (when the count is
positive) deleted, with no tenant condition.  Returns (deleted count,
remaining table). -/
def ReelService.cleanup_old_entries (db : List LogEntry)
    (retention_days : Int) (now : Int) : Nat × List LogEntry :=
  if retention_days ≤ 0 then (0, db)
  else
    let cutoff := now - retention_days
    let count := (db.filter (fun e => decide (e.created_at < cutoff))).length
    if 0 < count then
      (count, db.filter (fun e => !decide (e.created_at < cutoff)))
    else (count, db)

/-! ### Export encoding -/

/-- A JSON value, as built by `_export_json` before `json.dumps`. -/
inductive Json
  | null
  | str (s : String)
  | num (n : Int)
  | arr (elems : List Json)
  | obj (members : List (String × Json))

/-- Serialization of a `Json` value (`json.dumps`; the `indent=2`
whitespace layout is not modelled). -/
def Json.dumps : Json → String
  | .null => "null"
  | .str s => "\"" ++ s ++ "\""
  | .num n => toString n
  | .arr es =>
    "[" ++
      String.intercalate ", " (es.attach.map (fun j => Json.dumps j.1)) ++
    "]"
  | .obj ms =>
    "\x7b" ++
      String.intercalate ", "
        (ms.attach.map (fun m => "\"" ++ m.1.1 ++ "\": " ++ Json.dumps m.1.2)) ++
    "\x7d"
decreasing_by
  · have := List.sizeOf_lt_of_mem j.2
    simp_wf
    omega
  · obtain ⟨⟨k, v⟩, hm⟩ := m
    have := List.sizeOf_lt_of_mem hm
    simp_wf
    simp only [Prod.mk.sizeOf_spec] at this
    omega

/-- Lookup of a key in a JSON object. -/
def Json.member (j : Json) (k : String) : Option Json :=
  match j with
  | .obj ms => (ms.find? (fun m => m.1 == k)).map Prod.snd
  | _ => none

/-- The per-entry object built by `_export_json` (lines 370-388): thirteen
fixed keys, absent optional fields as `null`, plus a `data` key (nested
object or null) appended only when `include_data` is true. -/
def jsonItem (e : LogEntry) (include_data : Bool) : List (String × Json) :=
  [("id", .str (toString e.id)),
   ("created_at", .str (toString e.created_at)),
   ("module", .str e.module),
   ("action", .str e.action),
   ("severity", .str e.severity.value),
   ("actor_id", match e.actor_id with
     | some a => .str (toString a)
     | none => .null),
   ("actor_email", match e.actor_email with
     | some s => .str s
     | none => .null),
   ("actor_name", match e.actor_name with
     | some s => .str s
     | none => .null),
   ("tenant_id", .str (toString e.tenant_id)),
   ("client_id", match e.client_id with
     | some c => .str (toString c)
     | none => .null),
   ("resource_type", match e.resource_type with
     | some s => .str s
     | none => .null),
   ("resource_id", match e.resource_id with
     | some r => .str (toString r)
     | none => .null),
   ("ip_address", match e.ip_address with
     | some s => .str s
     | none => .null)] ++
  (if include_data then
    [("data", match e.data with
      | some d => Json.obj (d.map (fun p => (p.1, Json.str p.2)))
      | none => Json.null)]
   else [])

/-- The document built by `_export_json` (line 390):
`{"logs": items, "count": len(items)}`. -/
def exportJsonDoc (entries : List LogEntry) (include_data : Bool) : Json :=
  .obj [("logs", .arr (entries.map (fun e => Json.obj (jsonItem e include_data)))),
        ("count", .num entries.length)]

/-- `ReelService._export_json` (lines 367-390): the serialized document. -/
def exportJson (entries : List LogEntry) (include_data : Bool) : String :=
  (exportJsonDoc entries include_data).dumps

/-- The CSV header written by `_export_csv` (lines 324-340): thirteen
fixed column names, plus `data` appended when `include_data` is true. -/
def csvFieldnames (include_data : Bool) : List String :=
  ["id", "created_at", "module", "action", "severity", "actor_id",
   "actor_email", "actor_name", "tenant_id", "client_id", "resource_type",
   "resource_id", "ip_address"] ++
  (if include_data then ["data"] else [])

/-- One CSV row of `_export_csv` (lines 345-363): absent optional fields
render as `""`; the `data` column is the payload's JSON text when the
payload is truthy (present and non-empty) and `""` otherwise. -/
def csvRow (e : LogEntry) (include_data : Bool) : List String :=
  [toString e.id,
   toString e.created_at,
   e.module,
   e.action,
   e.severity.value,
   (match e.actor_id with | some a => toString a | none => ""),
   e.actor_email.getD "",
   e.actor_name.getD "",
   toString e.tenant_id,
   (match e.client_id with | some c => toString c | none => ""),
   e.resource_type.getD "",
   (match e.resource_id with | some r => toString r | none => ""),
   e.ip_address.getD ""] ++
  (if include_data then
    [match e.data with
     | some d => if d.isEmpty then "" else dumpsPayload d
     | none => ""]
   else [])

/-- The CSV records written by `_export_csv`: the header then one row per
entry, in the order received. -/
def csvRecords (entries : List LogEntry) (include_data : Bool) :
    List (List String) :=
  csvFieldnames include_data :: entries.map (fun e => csvRow e include_data)

/-- Minimal quoting of the Python `csv` module: a field containing the
delimiter, the quote character or a line break is wrapped in double
quotes, with inner quotes doubled. -/
def csvQuote (s : String) : String :=
  if s.contains ',' || s.contains '"' || s.contains '\r' || s.contains '\n'
  then "\"" ++ (s.replace "\"" "\"\"") ++ "\""
  else s

/-- One physical CSV line: quoted fields joined by commas. -/
def csvRenderLine (fields : List String) : String :=
  String.intercalate "," (fields.map csvQuote)

/-- `ReelService._export_csv` (lines 320-365): each record is written as
one line terminated by CRLF (the csv module's default line terminator). -/
def exportCsv (entries : List LogEntry) (include_data : Bool) : String :=
  String.join
    ((csvRecords entries include_data).map (fun r => csvRenderLine r ++ "\r\n"))

/-- `LogExportRequest` from `schemas/log.py` (`format` is schema-validated
to `"csv"` or `"json"`). -/
structure LogExportRequest where
  filter : Option LogFilter
  format : String
  include_data : Bool

/-- The rows fetched by `ReelService.export` (lines 296-306): tenant scope,
filters, newest first, truncated to `max_export_records`. -/
def exportEntries (db : List LogEntry) (tenant_id : Nat)
    (f : Option LogFilter) : List LogEntry :=
  (newestFirst (matchingEntries db tenant_id f)).take max_export_records

/-- `ReelService.export` (lines 285-318): returns (content, record count).
The timestamped filename is not modelled. -/
def ReelService.export (db : List LogEntry) (tenant_id : Nat)
    (request : LogExportRequest) : String × Nat :=
  let entries := exportEntries db tenant_id request.filter
  let content :=
    if request.format == "json" then exportJson entries request.include_data
    else exportCsv entries request.include_data
  (content, entries.length)

/-- The numeric level of a severity in the order
DEBUG < INFO < WARNING < ERROR < CRITICAL. -/
def severityLevel : LogSeverity → Nat
  | .DEBUG => 0
  | .INFO => 1
  | .WARNING => 2
  | .ERROR => 3
  | .CRITICAL => 4

/-- A filter specifying only `min_severity`. -/
def minSevFilter (m : LogSeverity) : LogFilter := { min_severity := some m }

/-- A filter specifying only `action`. -/
def actionFilter (a : String) : LogFilter := { action := some a }

/-! ### Concrete sample rows used by witnesses and counterexamples -/

def entryLogin : LogEntry :=
  { id := 1, tenant_id := 1, client_id := none, actor_id := none,
    actor_email := none, actor_name := none, module := "guardian",
    action := "users.login", severity := .INFO, resource_type := none,
    resource_id := none, data := none, ip_address := none,
    user_agent := none, request_id := none, created_at := 0 }

def entryLogout : LogEntry :=
  { entryLogin with id := 2, action := "users.logout" }

def entryUserLogin : LogEntry :=
  { entryLogin with id := 3, action := "user.login" }

def entryUsersBare : LogEntry :=
  { entryLogin with id := 4, action := "users" }

/-- 101 rows of tenant 1 (more than `max_page_size`). -/
def bigDb : List LogEntry :=
  (List.range 101).map (fun i => { entryLogin with id := i })

/-! ### Shared helper lemmas -/

lemma newestFirst_length (l : List LogEntry) :
    (newestFirst l).length = l.length := by
  simp [newestFirst]

lemma newestFirst_perm (l : List LogEntry) : List.Perm (newestFirst l) l :=
  List.mergeSort_perm l _

lemma length_filter_not_add {α : Type} (p : α → Bool) (l : List α) :
    (l.filter p).length + (l.filter (fun a => !p a)).length = l.length := by
  induction l with
  | nil => rfl
  | cons a l ih =>
    by_cases h : p a = true <;>
      simp [List.filter_cons, h, ih] <;> omega

lemma mem_matching {db : List LogEntry} {t : Nat} {f : Option LogFilter}
    {e : LogEntry} (h : e ∈ matchingEntries db t f) :
    e ∈ db ∧ e.tenant_id = t := by
  cases f <;>
    simp [matchingEntries, applyFilters, tenantScoped, List.mem_filter] at h <;>
    tauto

lemma join_slices {α : Type} (L : List α) (P : Nat) (k : Nat) :
    ((List.range k).map (fun i => (L.drop (i * P)).take P)).flatten
      = L.take (k * P) := by
  induction k with
  | zero => simp
  | succ k ih =>
    rw [List.range_succ, List.map_append, List.flatten_append]
    simp only [List.map_cons, List.map_nil, List.flatten_cons,
      List.flatten_nil, List.append_nil]
    rw [ih, Nat.succ_mul, List.take_add]

lemma le_ceil_mul (N P : Nat) (hP : 0 < P) : N ≤ ((N + P - 1) / P) * P := by
  by_contra hcon
  push_neg at hcon
  have h3 : (N + P - 1) / P + 1 ≤ (N + P - 1) / P := by
    apply (Nat.le_div_iff_mul_le hP).mpr
    rw [Nat.add_mul, one_mul]
    omega
  omega

lemma list_ok_inv {db : List LogEntry} {t : Nat} {f : Option LogFilter}
    {p : Int} {P : Nat} {r : LogEntryList}
    (h : ReelService.list db t f p P = .ok r) :
    r.total = (matchingEntries db t f).length ∧
    r.page = max p 1 ∧
    r.page_size = min P max_page_size ∧
    r.items ⊆ newestFirst (matchingEntries db t f) ∧
    (0 < (matchingEntries db t f).length →
      min P max_page_size ≠ 0 ∧
      r.pages = ((matchingEntries db t f).length + min P max_page_size - 1)
                  / min P max_page_size) ∧
    ((matchingEntries db t f).length = 0 → r.pages = 0) := by
  simp only [ReelService.list, newestFirst_length] at h
  split at h
  · rename_i hpos
    split at h
    · exact absurd h (by simp)
    · rename_i pages heq
      rw [Except.ok.injEq] at h
      subst h
      have hP0 : min P max_page_size ≠ 0 := by
        intro hz
        simp [pyFloorDiv, hz] at heq
      have hpages : pages
          = ((matchingEntries db t f).length + min P max_page_size - 1)
              / min P max_page_size := by
        rw [pyFloorDiv, if_neg hP0, Except.ok.injEq] at heq
        exact heq.symm
      refine ⟨rfl, rfl, rfl, ?_, fun _ => ⟨hP0, hpages⟩,
        fun hz => absurd hz (by omega)⟩
      intro x hx
      exact List.drop_subset _ _ (List.take_subset _ _ hx)
  · rename_i hpos
    rw [Except.ok.injEq] at h
    subst h
    refine ⟨rfl, rfl, rfl, ?_, fun hc => absurd hc (by omega), fun _ => rfl⟩
    intro x hx
    exact List.drop_subset _ _ (List.take_subset _ _ hx)

lemma list_eq_ok (db : List LogEntry) (t : Nat) (f : Option LogFilter)
    (p : Int) (P : Nat) (hP : min P max_page_size ≠ 0) :
    ReelService.list db t f p P =
      .ok { items := ((newestFirst (matchingEntries db t f)).drop
              ((max p 1 - 1).toNat * min P max_page_size)).take
              (min P max_page_size),
            total := (matchingEntries db t f).length,
            page := max p 1,
            page_size := min P max_page_size,
            pages := if 0 < (matchingEntries db t f).length
                     then ((matchingEntries db t f).length
                            + min P max_page_size - 1) / min P max_page_size
                     else 0 } := by
  simp only [ReelService.list, newestFirst_length, pyFloorDiv]
  rw [if_neg hP]
  split
  · rename_i hpos
    simp [hpos]
  · rename_i hpos
    simp [hpos]

lemma matchesFilter_minSev (m : LogSeverity) (e : LogEntry) :
    matchesFilter (minSevFilter m) e = minSeverityCond m e.severity := by
  simp [matchesFilter, minSevFilter]

lemma matchesFilter_action (a : String) (e : LogEntry) :
    matchesFilter (actionFilter a) e =
      (if a == "" then true
       else if strEndsWith a ".*" then strStartsWith e.action (strDropRight a 1)
       else e.action == a) := by
  simp [matchesFilter, actionFilter]

lemma matchesFilter_erase_module (f : LogFilter) (h : f.module = some "")
    (e : LogEntry) :
    matchesFilter f e = matchesFilter { f with module := none } e := by
  obtain ⟨sd, ed, ai, mo, ac, sv, ms, rt, ri, ci, se⟩ := f
  simp only at h
  subst h
  simp [matchesFilter]

lemma matchesFilter_erase_action (f : LogFilter) (h : f.action = some "")
    (e : LogEntry) :
    matchesFilter f e = matchesFilter { f with action := none } e := by
  obtain ⟨sd, ed, ai, mo, ac, sv, ms, rt, ri, ci, se⟩ := f
  simp only at h
  subst h
  simp [matchesFilter]

lemma matchesFilter_erase_search (f : LogFilter) (h : f.search = some "")
    (e : LogEntry) :
    matchesFilter f e = matchesFilter { f with search := none } e := by
  obtain ⟨sd, ed, ai, mo, ac, sv, ms, rt, ri, ci, se⟩ := f
  simp only at h
  subst h
  simp [matchesFilter]

lemma applyFilters_congr {f g : LogFilter}
    (h : ∀ e, matchesFilter f e = matchesFilter g e) (l : List LogEntry) :
    applyFilters (some f) l = applyFilters (some g) l := by
  simp only [applyFilters]
  exact List.filter_congr (fun a _ => h a)

lemma list_filter_irrel {db : List LogEntry} {t : Nat} {f g : LogFilter}
    {p : Int} {P : Nat}
    (h : matchingEntries db t (some f) = matchingEntries db t (some g)) :
    ReelService.list db t (some f) p P
      = ReelService.list db t (some g) p P := by
  unfold ReelService.list
  rw [h]

/-! ### Claims -/

/-- C3: filtering with `min_severity = WARNING` keeps exactly the entries
whose severity is WARNING, ERROR or CRITICAL (so never DEBUG or INFO), and
in general the `min_severity` condition holds of a row exactly when the
row's severity level is at or above the requested level in the order
DEBUG < INFO < WARNING < ERROR < CRITICAL. -/
theorem min_severity_expansion :
    (∀ (l : List LogEntry) (e : LogEntry),
        e ∈ applyFilters (some (minSevFilter .WARNING)) l ↔
          e ∈ l ∧ (e.severity = .WARNING ∨ e.severity = .ERROR ∨
                   e.severity = .CRITICAL)) ∧
    (∀ (m s : LogSeverity),
        minSeverityCond m s = true ↔ severityLevel m ≤ severityLevel s) := by
  constructor
  · intro l e
    simp only [applyFilters, List.mem_filter, matchesFilter_minSev]
    apply and_congr_right
    intro _
    have hgen : ∀ s : LogSeverity,
        minSeverityCond .WARNING s = true ↔
          (s = .WARNING ∨ s = .ERROR ∨ s = .CRITICAL) := by
      intro s
      cases s <;> decide
    exact hgen e.severity
  · intro m s
    cases m <;> cases s <;> decide

/-- C4 counterexample: the claim quantifies over every filter value, but
the empty string — which does not end in `".*"` — matches an entry whose
action is `"users.login"`, not equal to `""` (the Python guard
`if filter.action:` treats `""` as absent). -/
theorem action_filter_counterexample :
    matchesFilter (actionFilter "") entryLogin = true ∧
    strEndsWith "" ".*" = false ∧
    entryLogin.action ≠ "" := by
  refine ⟨by decide, by decide, by decide⟩

/-- C4 (amended): for every NON-EMPTY filter value `a`, if `a` ends in
`".*"` the filter matches exactly the entries whose action starts with the
text before the `*`, and otherwise it matches only entries whose action
equals `a` exactly. -/
theorem action_filter_semantics (a : String) (ha : a ≠ "") (e : LogEntry) :
    (strEndsWith a ".*" = true →
      (matchesFilter (actionFilter a) e = true ↔
        strStartsWith e.action (strDropRight a 1) = true)) ∧
    (strEndsWith a ".*" = false →
      (matchesFilter (actionFilter a) e = true ↔ e.action = a)) := by
  have hbeq : (a == "") = false := beq_eq_false_iff_ne.mpr ha
  constructor
  · intro hw
    rw [matchesFilter_action]
    simp [hbeq, hw]
  · intro hw
    rw [matchesFilter_action]
    simp [hbeq, hw]

/-- Witness for C4's amended theorem, including the spec's four examples:
`"users.*"` matches `"users.login"` and `"users.logout"` but neither
`"user.login"` nor `"users"`, and `"users.login"` matches exactly. -/
theorem action_filter_semantics_witness :
    ("users.*" : String) ≠ "" ∧
    (matchesFilter (actionFilter "users.*") entryLogin = true ↔
      strStartsWith entryLogin.action (strDropRight "users.*" 1) = true) ∧
    matchesFilter (actionFilter "users.*") entryLogin = true ∧
    matchesFilter (actionFilter "users.*") entryLogout = true ∧
    matchesFilter (actionFilter "users.*") entryUserLogin = false ∧
    matchesFilter (actionFilter "users.*") entryUsersBare = false ∧
    matchesFilter (actionFilter "users.login") entryLogin = true ∧
    matchesFilter (actionFilter "users.login") entryLogout = false := by
  refine ⟨by decide,
    (action_filter_semantics "users.*" (by decide) entryLogin).1 (by decide),
    by decide, by decide, by decide, by decide, by decide, by decide⟩

/-- C5: `cleanup_old_entries` with `retention_days ≤ 0` returns 0 and
leaves the table unchanged; with a positive retention it deletes exactly
the rows with `created_at < now - retention_days` — with no tenant
condition, so across all tenants — and returns the number deleted
(deleted count plus remaining rows add up to the whole table). -/
theorem cleanup_retention_policy (db : List LogEntry)
    (retention_days now : Int) :
    (retention_days ≤ 0 →
      ReelService.cleanup_old_entries db retention_days now = (0, db)) ∧
    (0 < retention_days →
      (ReelService.cleanup_old_entries db retention_days now).1
        = (db.filter
            (fun e => decide (e.created_at < now - retention_days))).length ∧
      (ReelService.cleanup_old_entries db retention_days now).2
        = db.filter
            (fun e => decide (now - retention_days ≤ e.created_at)) ∧
      (ReelService.cleanup_old_entries db retention_days now).1
        + (ReelService.cleanup_old_entries db retention_days now).2.length
        = db.length) := by
  have hfe : (fun e : LogEntry =>
        decide (now - retention_days ≤ e.created_at))
      = (fun e => !decide (e.created_at < now - retention_days)) := by
    funext e
    rw [← decide_not]
    simp [Int.not_lt]
  constructor
  · intro h
    simp [ReelService.cleanup_old_entries, h]
  · intro h
    have hn : ¬ retention_days ≤ 0 := by omega
    have hmain : ReelService.cleanup_old_entries db retention_days now
        = ((db.filter
              (fun e => decide (e.created_at < now - retention_days))).length,
           db.filter
              (fun e => decide (now - retention_days ≤ e.created_at))) := by
      simp only [ReelService.cleanup_old_entries]
      rw [if_neg hn]
      by_cases hc : 0 < (db.filter
          (fun e => decide (e.created_at < now - retention_days))).length
      · rw [if_pos hc, hfe]
      · rw [if_neg hc]
        have h0 : (db.filter
            (fun e => decide (e.created_at < now - retention_days))).length
              = 0 := by omega
        have hnil : db.filter
            (fun e => decide (e.created_at < now - retention_days)) = [] :=
          List.length_eq_zero.mp h0
        have hself : db.filter
            (fun e => decide (now - retention_days ≤ e.created_at)) = db := by
          apply List.filter_eq_self.mpr
          intro a ha
          by_contra hna
          have hlt : a.created_at < now - retention_days := by
            simp only [decide_eq_true_eq] at hna
            omega
          have : a ∈ db.filter
              (fun e => decide (e.created_at < now - retention_days)) :=
            List.mem_filter.mpr ⟨ha, by simp [hlt]⟩
          simp [hnil] at this
        rw [h0, hself]
    rw [hmain]
    refine ⟨rfl, rfl, ?_⟩
    rw [hfe]
    exact length_filter_not_add _ db

/-- Witness for C5: with retention 0 an old row survives and 0 is
returned; with retention 5 and `now = 100` the row at time 0 is counted
as deleted. -/
theorem cleanup_retention_policy_witness :
    ReelService.cleanup_old_entries [entryLogin] 0 100 = (0, [entryLogin]) ∧
    (ReelService.cleanup_old_entries [entryLogin] 5 100).1 = 1 := by
  constructor
  · exact (cleanup_retention_policy [entryLogin] 0 100).1 (by decide)
  · have h := ((cleanup_retention_policy [entryLogin] 5 100).2 (by decide)).1
    rw [h]
    decide

/-- C10: a filter whose `module` (or `action`, or `search`) field is the
empty string behaves exactly like the same filter with that field absent —
the Python truthiness guard `if filter.x:` skips the condition — so `list`
returns identical results, rather than matching only rows with an empty
field. -/
theorem empty_string_filter_noop :
    (∀ (db : List LogEntry) (t : Nat) (p : Int) (P : Nat) (f : LogFilter),
        f.module = some "" →
        ReelService.list db t (some f) p P
          = ReelService.list db t (some { f with module := none }) p P) ∧
    (∀ (db : List LogEntry) (t : Nat) (p : Int) (P : Nat) (f : LogFilter),
        f.action = some "" →
        ReelService.list db t (some f) p P
          = ReelService.list db t (some { f with action := none }) p P) ∧
    (∀ (db : List LogEntry) (t : Nat) (p : Int) (P : Nat) (f : LogFilter),
        f.search = some "" →
        ReelService.list db t (some f) p P
          = ReelService.list db t (some { f with search := none }) p P) := by
  refine ⟨?_, ?_, ?_⟩
  · intro db t p P f h
    apply list_filter_irrel
    unfold matchingEntries
    exact applyFilters_congr (matchesFilter_erase_module f h) _
  · intro db t p P f h
    apply list_filter_irrel
    unfold matchingEntries
    exact applyFilters_congr (matchesFilter_erase_action f h) _
  · intro db t p P f h
    apply list_filter_irrel
    unfold matchingEntries
    exact applyFilters_congr (matchesFilter_erase_search f h) _

/-- Witness for C10 at a concrete database and filters. -/
theorem empty_string_filter_noop_witness :
    ReelService.list [entryLogin] 1 (some { module := some "" }) 1 50
      = ReelService.list [entryLogin] 1 (some { module := none }) 1 50 ∧
    ReelService.list [entryLogin] 1 (some { action := some "" }) 1 50
      = ReelService.list [entryLogin] 1 (some { action := none }) 1 50 ∧
    ReelService.list [entryLogin] 1 (some { search := some "" }) 1 50
      = ReelService.list [entryLogin] 1 (some { search := none }) 1 50 := by
  refine ⟨empty_string_filter_noop.1 [entryLogin] 1 1 50
      { module := some "" } rfl,
    empty_string_filter_noop.2.1 [entryLogin] 1 1 50
      { action := some "" } rfl,
    empty_string_filter_noop.2.2 [entryLogin] 1 1 50
      { search := some "" } rfl⟩

/-- C1: every row returned by `list` scoped to tenant `A` has
`tenant_id = A` (so for any `B ≠ A` no row of `B` is ever returned);
`get` returns a row only when its id and tenant both match, and returns
`none` when no row with that id belongs to the tenant (absent or owned by
another tenant — indistinguishable to the caller, surfaced as NotFound at
the API layer). -/
theorem tenant_isolation :
    (∀ (db : List LogEntry) (A : Nat) (f : Option LogFilter) (p : Int)
        (P : Nat) (r : LogEntryList) (e : LogEntry),
        ReelService.list db A f p P = .ok r → e ∈ r.items →
        e.tenant_id = A) ∧
    (∀ (db : List LogEntry) (i A : Nat) (e : LogEntry),
        ReelService.get db i A = .ok (some e) →
        e.tenant_id = A ∧ e.id = i ∧ e ∈ db) ∧
    (∀ (db : List LogEntry) (i A : Nat),
        (∀ e ∈ db, ¬ (e.id = i ∧ e.tenant_id = A)) →
        ReelService.get db i A = .ok none) := by
  refine ⟨?_, ?_, ?_⟩
  · intro db A f p P r e hok hmem
    have hsub := (list_ok_inv hok).2.2.2.1
    have he : e ∈ newestFirst (matchingEntries db A f) := hsub hmem
    have he2 : e ∈ matchingEntries db A f := by
      rw [newestFirst] at he
      exact List.mem_mergeSort.mp he
    exact (mem_matching he2).2
  · intro db i A e h
    unfold ReelService.get scalarOneOrNone at h
    split at h
    · exact absurd h (by simp)
    · rename_i x hx
      rw [Except.ok.injEq, Option.some.injEq] at h
      subst h
      have hxmem : x ∈ db.filter (fun y => y.id == i && y.tenant_id == A) := by
        rw [hx]
        exact List.mem_singleton.mpr rfl
      obtain ⟨hdb, hq⟩ := List.mem_filter.mp hxmem
      simp only [Bool.and_eq_true, beq_iff_eq] at hq
      exact ⟨hq.2, hq.1, hdb⟩
    · exact absurd h (by simp)
  · intro db i A hno
    unfold ReelService.get
    have hnil : db.filter (fun x => x.id == i && x.tenant_id == A) = [] := by
      rw [List.filter_eq_nil_iff]
      intro a ha
      have := hno a ha
      simp only [Bool.and_eq_true, beq_iff_eq]
      tauto
    rw [hnil]
    rfl

/-- Witness for C1: in a one-row table owned by tenant 1, `get` with the
right id reports tenant 1, and `get` for an id the tenant does not own
returns `none`. -/
theorem tenant_isolation_witness :
    entryLogin.tenant_id = 1 ∧
    ReelService.get [entryLogin] 99 1 = Except.ok none := by
  refine ⟨(tenant_isolation.2.1 [entryLogin] 1 1 entryLogin (by rfl)).1,
    tenant_isolation.2.2 [entryLogin] 99 1 (by decide)⟩

/-- C9: `list` clamps `page_size` only from above (`min` with
`max_page_size`) and clamps `page` to at least 1; with `page_size = 0` and
at least one matching row, the `pages` computation divides by zero and the
call raises `ZeroDivisionError` instead of clamping or returning a
result. -/
theorem list_clamping (db : List LogEntry) (t : Nat) (f : Option LogFilter)
    (page : Int) (P : Nat) :
    (∀ r, ReelService.list db t f page P = .ok r →
        r.page_size = min P max_page_size ∧ r.page = max page 1) ∧
    (0 < (matchingEntries db t f).length →
        ReelService.list db t f page 0 = .error "ZeroDivisionError") := by
  constructor
  · intro r h
    exact ⟨(list_ok_inv h).2.2.1, (list_ok_inv h).2.1⟩
  · intro hpos
    have h0 : min 0 max_page_size = 0 := rfl
    simp only [ReelService.list, newestFirst_length, h0, pyFloorDiv]
    rw [if_pos hpos]
    rfl

/-- Witness for C9: a one-row table and `page_size = 0` raise. -/
theorem list_clamping_witness :
    ReelService.list [entryLogin] 1 none 0 0
      = Except.error "ZeroDivisionError" :=
  (list_clamping [entryLogin] 1 none 0 0).2 (by decide)

/-- C2 counterexample to the claim as stated: with 101 matching rows and
`page_size = 200`, the requested size is clamped to `max_page_size = 100`,
so `list` returns `pages = 2` whereas `ceil(101 / 200) = 1`. -/
theorem list_pagination_counterexample :
    Except.map (fun r => (r.total, r.pages))
        (ReelService.list bigDb 1 none 1 200)
      = Except.ok (101, 2) ∧
    (101 + 200 - 1) / 200 = 1 := by
  have hN : (matchingEntries bigDb 1 none).length = 101 := by decide
  constructor
  · rw [list_eq_ok bigDb 1 none 1 200 (by norm_num [max_page_size])]
    simp [Except.map, hN, max_page_size]
  · norm_num

/-- C2 (amended): for every tenant, filter and requested `page_size P ≥ 1`,
with `P' = min P max_page_size` the effective page size, every successful
`list` call reports `total = N` (the number of matching rows) and
`pages = ceil(N / P')` (which is 0 when `N = 0`), and the concatenation of
the `items` fields over pages `1..pages` contains exactly the `N` matching
rows, each exactly once (a permutation). -/
theorem list_pagination (db : List LogEntry) (t : Nat) (f : Option LogFilter)
    (P : Nat) (hP : 1 ≤ P) :
    (∀ (p : Int) (r : LogEntryList),
        ReelService.list db t f p P = .ok r →
          r.total = (matchingEntries db t f).length ∧
          r.pages = ((matchingEntries db t f).length + min P max_page_size - 1)
                      / min P max_page_size ∧
          ((matchingEntries db t f).length = 0 → r.pages = 0)) ∧
    ((List.range
        (((matchingEntries db t f).length + min P max_page_size - 1)
          / min P max_page_size)).map
        (fun i => pageItems db t f P (i + 1))).flatten.Perm
      (matchingEntries db t f) := by
  have hmax : 0 < max_page_size := by norm_num [max_page_size]
  have hP'pos : 0 < min P max_page_size := Nat.lt_min.mpr ⟨hP, hmax⟩
  have hP'ne : min P max_page_size ≠ 0 := Nat.pos_iff_ne_zero.mp hP'pos
  constructor
  · intro p r h
    have inv := list_ok_inv h
    refine ⟨inv.1, ?_, fun h0 => inv.2.2.2.2.2 h0⟩
    by_cases hN : 0 < (matchingEntries db t f).length
    · exact (inv.2.2.2.2.1 hN).2
    · have h0 : (matchingEntries db t f).length = 0 := by omega
      rw [inv.2.2.2.2.2 h0, h0, Nat.zero_add]
      exact (Nat.div_eq_of_lt (by omega)).symm
  · have hpage : ∀ i : Nat, pageItems db t f P (i + 1)
        = ((newestFirst (matchingEntries db t f)).drop
            (i * min P max_page_size)).take (min P max_page_size) := by
      intro i
      unfold pageItems
      rw [list_eq_ok db t f ((i + 1 : Nat) : Int) P hP'ne]
      have hmaxeq : max ((i + 1 : Nat) : Int) 1 = ((i + 1 : Nat) : Int) := by
        apply max_eq_left
        exact_mod_cast Nat.succ_le_succ (Nat.zero_le i)
      dsimp only
      rw [hmaxeq]
      have harg : (((i + 1 : Nat) : Int) - 1).toNat = i := by omega
      rw [harg]
    rw [List.map_congr_left (fun i _ => hpage i), join_slices]
    have htake : (newestFirst (matchingEntries db t f)).take
        ((((matchingEntries db t f).length + min P max_page_size - 1)
          / min P max_page_size) * min P max_page_size)
        = newestFirst (matchingEntries db t f) := by
      apply List.take_of_length_le
      rw [newestFirst_length]
      exact le_ceil_mul _ _ hP'pos
    rw [htake]
    exact newestFirst_perm _

/-- Witness for C2's amended theorem at a concrete one-row table. -/
theorem list_pagination_witness :
    ((List.range
        (((matchingEntries [entryLogin] 1 none).length
            + min 50 max_page_size - 1) / min 50 max_page_size)).map
        (fun i => pageItems [entryLogin] 1 none 50 (i + 1))).flatten.Perm
      (matchingEntries [entryLogin] 1 none) :=
  (list_pagination [entryLogin] 1 none 50 (by decide)).2

/-- C6: `export` returns at most `max_export_records` rows — exactly
`min N max_export_records` where `N` counts the matching rows, so when
more rows match it truncates silently (no error value exists; the
returned count is the cap) — the exported rows are a leading segment of
the newest-first ordering of the matching rows (sorted by `created_at`
descending), and `record_count` equals the number of rows actually
encoded into the content. -/
theorem export_cap (db : List LogEntry) (t : Nat) (req : LogExportRequest) :
    (ReelService.export db t req).2 ≤ max_export_records ∧
    (ReelService.export db t req).2
      = min (matchingEntries db t req.filter).length max_export_records ∧
    (ReelService.export db t req).2 = (exportEntries db t req.filter).length ∧
    (ReelService.export db t req).1
      = (if req.format == "json"
         then exportJson (exportEntries db t req.filter) req.include_data
         else exportCsv (exportEntries db t req.filter) req.include_data) ∧
    (exportEntries db t req.filter).Pairwise
      (fun a b => b.created_at ≤ a.created_at) ∧
    List.IsPrefix (exportEntries db t req.filter)
      (newestFirst (matchingEntries db t req.filter)) ∧
    ∀ e ∈ exportEntries db t req.filter,
      e ∈ matchingEntries db t req.filter := by
  refine ⟨?_, ?_, rfl, rfl, ?_, ?_, ?_⟩
  · exact List.length_take_le _ _
  · show (exportEntries db t req.filter).length = _
    unfold exportEntries
    rw [List.length_take, newestFirst_length]
    exact Nat.min_comm _ _
  · have htrans : ∀ (a b c : LogEntry),
        decide (b.created_at ≤ a.created_at) = true →
        decide (c.created_at ≤ b.created_at) = true →
        decide (c.created_at ≤ a.created_at) = true := by
      intro a b c h1 h2
      simp only [decide_eq_true_eq] at h1 h2 ⊢
      omega
    have htotal : ∀ (a b : LogEntry),
        (decide (b.created_at ≤ a.created_at)
          || decide (a.created_at ≤ b.created_at)) = true := by
      intro a b
      simp only [Bool.or_eq_true, decide_eq_true_eq]
      omega
    have hs := List.sorted_mergeSort htrans htotal
      (matchingEntries db t req.filter)
    unfold exportEntries newestFirst
    exact List.Pairwise.sublist (List.take_sublist _ _)
      (hs.imp (fun h => of_decide_eq_true h))
  · unfold exportEntries
    exact List.take_prefix _ _
  · intro e he
    unfold exportEntries at he
    have hmem := List.take_subset _ _ he
    rw [newestFirst] at hmem
    exact List.mem_mergeSort.mp hmem

/-- Witness for C6 at a concrete one-row export request. -/
theorem export_cap_witness :
    (ReelService.export [entryLogin] 1
        { filter := none, format := "csv", include_data := false }).2
      ≤ max_export_records ∧
    (ReelService.export [entryLogin] 1
        { filter := none, format := "csv", include_data := false }).2
      = min (matchingEntries [entryLogin] 1 none).length max_export_records :=
  ⟨(export_cap [entryLogin] 1
      { filter := none, format := "csv", include_data := false }).1,
   (export_cap [entryLogin] 1
      { filter := none, format := "csv", include_data := false }).2.1⟩

/-- C7: the CSV encoding of `N` entries consists of a header record plus
one record per entry in the order received (`N + 1` CRLF-terminated
lines), each record having exactly 13 columns without the payload and 14
with it, and every absent optional field renders as the empty string `""`
(in particular never the literal word "null"). -/
theorem csv_export_shape (entries : List LogEntry) (b : Bool) :
    (csvRecords entries b).length = entries.length + 1 ∧
    (∀ r ∈ csvRecords entries b, r.length = if b then 14 else 13) ∧
    exportCsv entries b
      = String.join
          ((csvRecords entries b).map (fun r => csvRenderLine r ++ "\r\n")) ∧
    csvRecords entries b
      = csvFieldnames b :: entries.map (fun e => csvRow e b) ∧
    (∀ e ∈ entries,
      (e.actor_id = none → (csvRow e b)[5]? = some "") ∧
      (e.actor_email = none → (csvRow e b)[6]? = some "") ∧
      (e.actor_name = none → (csvRow e b)[7]? = some "") ∧
      (e.client_id = none → (csvRow e b)[9]? = some "") ∧
      (e.resource_type = none → (csvRow e b)[10]? = some "") ∧
      (e.resource_id = none → (csvRow e b)[11]? = some "") ∧
      (e.ip_address = none → (csvRow e b)[12]? = some "") ∧
      (b = true → e.data = none → (csvRow e b)[13]? = some "")) := by
  refine ⟨?_, ?_, rfl, rfl, ?_⟩
  · simp [csvRecords]
  · intro r hr
    rcases List.mem_cons.mp hr with h | h
    · subst h
      cases b <;> simp [csvFieldnames]
    · obtain ⟨e, _, rfl⟩ := List.mem_map.mp h
      cases b <;> simp [csvRow]
  · intro e _
    refine ⟨fun h => ?_, fun h => ?_, fun h => ?_, fun h => ?_, fun h => ?_,
      fun h => ?_, fun h => ?_, fun hb h => ?_⟩
    · cases b <;> simp [csvRow, h]
    · cases b <;> simp [csvRow, h]
    · cases b <;> simp [csvRow, h]
    · cases b <;> simp [csvRow, h]
    · cases b <;> simp [csvRow, h]
    · cases b <;> simp [csvRow, h]
    · cases b <;> simp [csvRow, h]
    · subst hb
      simp [csvRow, h]

/-- Witness for C7 at a concrete one-entry encoding. -/
theorem csv_export_shape_witness :
    (csvRecords [entryLogin] true).length = 2 ∧
    (csvRow entryLogin true)[6]? = some "" := by
  refine ⟨(csv_export_shape [entryLogin] true).1, ?_⟩
  exact ((csv_export_shape [entryLogin] true).2.2.2.2 entryLogin
    (by simp)).2.1 rfl

/-- C8: the JSON export document's `count` field equals the length of its
`logs` array; each element of `logs` carries the fixed field set with
absent optional fields rendered as `null`, and contains a `data` key
(nested object or null) exactly when `include_data` is true. -/
theorem json_export_count (entries : List LogEntry) (b : Bool) :
    Json.member (exportJsonDoc entries b) "count"
      = some (.num entries.length) ∧
    Json.member (exportJsonDoc entries b) "logs"
      = some (.arr (entries.map (fun e => Json.obj (jsonItem e b)))) ∧
    (∀ (L : List Json) (n : Int),
        Json.member (exportJsonDoc entries b) "logs" = some (.arr L) →
        Json.member (exportJsonDoc entries b) "count" = some (.num n) →
        n = L.length) ∧
    (∀ e ∈ entries, ((Json.obj (jsonItem e b)).member "data").isSome = b) ∧
    (∀ e ∈ entries,
      (e.actor_id = none →
        (Json.obj (jsonItem e b)).member "actor_id" = some .null) ∧
      (e.actor_email = none →
        (Json.obj (jsonItem e b)).member "actor_email" = some .null) ∧
      (e.actor_name = none →
        (Json.obj (jsonItem e b)).member "actor_name" = some .null) ∧
      (e.client_id = none →
        (Json.obj (jsonItem e b)).member "client_id" = some .null) ∧
      (e.resource_type = none →
        (Json.obj (jsonItem e b)).member "resource_type" = some .null) ∧
      (e.resource_id = none →
        (Json.obj (jsonItem e b)).member "resource_id" = some .null) ∧
      (e.ip_address = none →
        (Json.obj (jsonItem e b)).member "ip_address" = some .null) ∧
      (b = true → e.data = none →
        (Json.obj (jsonItem e b)).member "data" = some .null)) := by
  refine ⟨rfl, rfl, ?_, ?_, ?_⟩
  · intro L n hL hn
    rw [show Json.member (exportJsonDoc entries b) "logs"
        = some (Json.arr (entries.map (fun e => Json.obj (jsonItem e b))))
        from rfl, Option.some.injEq, Json.arr.injEq] at hL
    rw [show Json.member (exportJsonDoc entries b) "count"
        = some (Json.num (entries.length : Int)) from rfl,
      Option.some.injEq, Json.num.injEq] at hn
    subst hL
    subst hn
    rw [List.length_map]
  · intro e _
    cases b <;> rfl
  · intro e _
    refine ⟨fun h => ?_, fun h => ?_, fun h => ?_, fun h => ?_, fun h => ?_,
      fun h => ?_, fun h => ?_, fun hb h => ?_⟩
    · rw [show (Json.obj (jsonItem e b)).member "actor_id"
          = some (match e.actor_id with
            | some a => .str (toString a)
            | none => .null) from rfl, h]
    · rw [show (Json.obj (jsonItem e b)).member "actor_email"
          = some (match e.actor_email with
            | some s => .str s
            | none => .null) from rfl, h]
    · rw [show (Json.obj (jsonItem e b)).member "actor_name"
          = some (match e.actor_name with
            | some s => .str s
            | none => .null) from rfl, h]
    · rw [show (Json.obj (jsonItem e b)).member "client_id"
          = some (match e.client_id with
            | some c => .str (toString c)
            | none => .null) from rfl, h]
    · rw [show (Json.obj (jsonItem e b)).member "resource_type"
          = some (match e.resource_type with
            | some s => .str s
            | none => .null) from rfl, h]
    · rw [show (Json.obj (jsonItem e b)).member "resource_id"
          = some (match e.resource_id with
            | some r => .str (toString r)
            | none => .null) from rfl, h]
    · rw [show (Json.obj (jsonItem e b)).member "ip_address"
          = some (match e.ip_address with
            | some s => .str s
            | none => .null) from rfl, h]
    · subst hb
      rw [show (Json.obj (jsonItem e true)).member "data"
          = some (match e.data with
            | some d => Json.obj (d.map (fun p => (p.1, Json.str p.2)))
            | none => Json.null) from rfl, h]

/-- Witness for C8 at a concrete one-entry document. -/
theorem json_export_count_witness :
    Json.member (exportJsonDoc [entryLogin] false) "count"
      = some (Json.num 1) ∧
    ((Json.obj (jsonItem entryLogin false)).member "data").isSome = false := by
  refine ⟨(json_export_count [entryLogin] false).1,
    (json_export_count [entryLogin] false).2.2.2.1 entryLogin (by simp)⟩

end Reel
